import Mathlib

/-!
# Verification of the mood-tracker core (identity directory, profile store,
# mood store, statistics aggregator)

Shallow embedding of the repository's data-access wrappers (`services/db`),
the auth flows (`Auth` component: `handleLogin`, `handleRegister`) and the
statistics aggregation in the `Profile` component.

The hosted hierarchical key-value store is modelled as three total maps
(path families `usernames/{name}`, `users/{uid}/profile`,
`users/{uid}/moods/{date}`).  JavaScript string operations used by the code
(`includes`, `trim`, `toLowerCase`, `split('-')`, `Number(...)`) are modelled
on the character list of the string.
-/

/-- JS `s.includes(c)` for a single-character needle. -/
def jsIncludes (s : String) (c : Char) : Bool := s.data.contains c

/-- JS falsiness test `!s` for strings: true exactly on the empty string. -/
def jsFalsy (s : String) : Bool := s.data.isEmpty

/-- Trim whitespace from both ends of a character list. -/
def trimChars (cs : List Char) : List Char :=
  ((cs.dropWhile Char.isWhitespace).reverse.dropWhile Char.isWhitespace).reverse

/-- JS `s.trim()`. -/
def jsTrim (s : String) : String := ⟨trimChars s.data⟩

/-- JS `s.toLowerCase()` (ASCII case mapping, which covers the usernames here). -/
def jsToLower (s : String) : String := ⟨s.data.map Char.toLower⟩

/-- The username normalisation used by both `registerUsername` and
`getUidByUsername`: `username.toLowerCase().trim()`. -/
def normalizeUsername (username : String) : String := jsTrim (jsToLower username)

/-- `UserProfile` from `types.ts`. -/
structure UserProfile where
  uid : String
  email : String
  username : String
deriving DecidableEq

/-- `MoodLog` from `types.ts` (`value` is the mood integer, `timestamp` ms). -/
structure MoodLog where
  date : String
  value : Int
  timestamp : Int
deriving DecidableEq

/-- The slice of the hosted database the core touches: the three path
families `usernames/{normalizedUsername}`, `users/{uid}/profile`,
`users/{uid}/moods/{date}`. -/
structure Store where
  usernames : String → Option String
  profiles : String → Option UserProfile
  moods : String → String → Option MoodLog

/-- The database with no data at all. -/
def Store.empty : Store :=
  { usernames := fun _ => none, profiles := fun _ => none, moods := fun _ _ => none }

/-- `registerUsername`: writes `usernames/{normalized} -> uid` unconditionally
(the `email` argument is accepted and ignored, as in the source). -/
def registerUsername (s : Store) (username email uid : String) : Store :=
  { s with usernames :=
      Function.update s.usernames (normalizeUsername username) (some uid) }

/-- `getUidByUsername`: normalises and looks up `usernames/{normalized}`. -/
def getUidByUsername (s : Store) (username : String) : Option String :=
  s.usernames (normalizeUsername username)

/-- `saveUserProfile`: skips (store unchanged) when the id contains `.` or
`@`; otherwise writes `users/{userId}/profile`. -/
def saveUserProfile (s : Store) (userId : String) (profile : UserProfile) : Store :=
  if jsIncludes userId '.' || jsIncludes userId '@' then s
  else { s with profiles := Function.update s.profiles userId (some profile) }

/-- `getUserProfile`: returns `null` on empty/malformed id, on missing data
(and on fetch failure, which the source collapses to the same `null`). -/
def getUserProfile (s : Store) (userId : String) : Option UserProfile :=
  if jsFalsy userId || jsIncludes userId '.' || jsIncludes userId '@' then none
  else s.profiles userId

/-- `saveMood`: no-op on ids containing `.` or `@`; otherwise upserts at
`users/{userId}/moods/{mood.date}`. -/
def saveMood (s : Store) (userId : String) (mood : MoodLog) : Store :=
  if jsIncludes userId '.' || jsIncludes userId '@' then s
  else { s with moods :=
      Function.update s.moods userId (Function.update (s.moods userId) mood.date (some mood)) }

/-- `deleteMood`: no-op on ids containing `.` or `@`; otherwise removes the
record at `users/{userId}/moods/{dateStr}`. -/
def deleteMood (s : Store) (userId dateStr : String) : Store :=
  if jsIncludes userId '.' || jsIncludes userId '@' then s
  else { s with moods :=
      Function.update s.moods userId (Function.update (s.moods userId) dateStr none) }

/-- `getUserMoods`: empty mapping on empty/malformed id or missing data
(fetch failure also collapses to empty in the source). -/
def getUserMoods (s : Store) (userId : String) : String → Option MoodLog :=
  if jsFalsy userId || jsIncludes userId '.' || jsIncludes userId '@' then fun _ => none
  else s.moods userId

/-- The deregistration capability `subscribeToMoods` returns: either the
no-op closure `() => {}` or `() => off(moodsRef, 'value', listener)`. -/
inductive Unsub where
  | noop : Unsub
  | off (path : String) : Unsub
deriving DecidableEq

/-- Result of `subscribeToMoods`: the collection delivered by the immediate
first callback invocation, and the returned deregistration capability. -/
structure SubResult where
  payload : String → Option MoodLog
  unsub : Unsub

/-- `subscribeToMoods`: on empty/malformed id, calls back once with `{}` and
returns the no-op closure; otherwise delivers the current collection and
returns a capability that detaches the listener at `users/{userId}/moods`. -/
def subscribeToMoods (s : Store) (userId : String) : SubResult :=
  if jsFalsy userId || jsIncludes userId '.' || jsIncludes userId '@' then
    { payload := fun _ => none, unsub := Unsub.noop }
  else
    { payload := s.moods userId, unsub := Unsub.off ("users/" ++ userId ++ "/moods") }

/-- Effect of invoking a deregistration capability on the set of active
listener registrations: the no-op closure changes nothing. -/
def applyUnsub : Unsub → List String → List String
  | Unsub.noop, L => L
  | Unsub.off p, L => L.erase p

/-! ## Statistics aggregator (the `Profile` component in the source)

Calendar instants are modelled as integer day numbers (days since the epoch
1970-01-01) plus millisecond offsets; the epoch day was a Thursday, so JS
`getDay()` of day number `n` is `(n + 4) mod 7` (0 = Sunday .. 6 = Saturday).
All `Date` values the aggregator compares sit at day boundaries (`setHours`
calls and midnight-parsed date strings), so a fixed-offset local timezone
cancels out of every comparison. -/

/-- Day number (days since 1970-01-01) of the civil date `y-m-d` for a month
`m` in `1..12`; linear in `d`, which matches JS `Date`'s day rollover. -/
def daysFromCivil (y m d : Int) : Int :=
  let a := (14 - m).fdiv 12
  let y2 := y + 4800 - a
  let m2 := m + 12 * a - 3
  d + (153 * m2 + 2).fdiv 5 + 365 * y2 + y2.fdiv 4 - y2.fdiv 100 + y2.fdiv 400 - 32045 - 2440588

/-- Day number of JS `new Date(y, m0, d)` (0-based month `m0`, normalised
with floor division exactly as JS rolls months over into years). -/
def jsDateDay (y m0 d : Int) : Int :=
  daysFromCivil (y + m0.fdiv 12) (m0.fmod 12 + 1) d

/-- JS `Date.prototype.getDay` of a day number: 0 = Sunday .. 6 = Saturday. -/
def jsGetDay (day : Int) : Int := (day + 4) % 7

/-- JS `Number(segment)` for the digit segments produced by splitting a
`YYYY-MM-DD` string: `""` is 0, a digit string is its value, anything else
is `NaN` (`none`). -/
def jsNumber (cs : List Char) : Option Int :=
  if cs.isEmpty then some 0
  else if cs.all Char.isDigit then
    some ((cs.foldl (fun a c => a * 10 + (c.toNat - 48)) 0 : Nat) : Int)
  else none

/-- JS `s.split(sep)` on the character list (keeps empty segments). -/
def splitOnChar (sep : Char) (cs : List Char) : List (List Char) :=
  cs.foldr
    (fun c acc =>
      if c = sep then [] :: acc
      else match acc with
        | a :: rest => (c :: a) :: rest
        | [] => [[c]])
    [[]]

/-- `const [y, mo, d] = m.date.split('-').map(Number); new Date(y, mo-1, d)`:
the day number of the record's parsed date, `none` when any component is
`NaN`/missing (an invalid `Date` fails every comparison in the source). -/
def parseDateDay (s : String) : Option Int :=
  match splitOnChar '-' s.data with
  | a :: b :: c :: _ =>
    match jsNumber a, jsNumber b, jsNumber c with
    | some y, some m, some d => some (jsDateDay y (m - 1) d)
    | _, _, _ => none
  | _ => none

/-- Milliseconds per day. -/
def msPerDay : Int := 86400000

/-- `distanceToMonday` in the source: `currentDay === 0 ? 6 : currentDay - 1`. -/
def distanceToMonday (todayDay : Int) : Int :=
  if jsGetDay todayDay = 0 then 6 else jsGetDay todayDay - 1

/-- Day number of the `monday` the source computes (midnight of Monday of
the week containing `todayDay`). -/
def mondayOf (todayDay : Int) : Int := todayDay - distanceToMonday todayDay

/-- The `currentWeekLogs` filter predicate: the parsed date (midnight, in
ms) is `>= monday` (midnight, ms) and `<= sunday` (monday+6 at
23:59:59.999, ms). -/
def inCurrentWeek (todayDay : Int) (dateStr : String) : Bool :=
  match parseDateDay dateStr with
  | some dn =>
    decide (mondayOf todayDay * msPerDay ≤ dn * msPerDay) &&
    decide (dn * msPerDay ≤ (mondayOf todayDay + 6) * msPerDay + 86399999)
  | none => false

/-- `currentWeekLogs` from the source. -/
def currentWeekLogs (todayDay : Int) (logs : List MoodLog) : List MoodLog :=
  logs.filter (fun m => inCurrentWeek todayDay m.date)

/-- The `currentMonthLogs` filter predicate:
`y === today.getFullYear() && (mo - 1) === today.getMonth()` with `y, mo`
the first two `Number`-parsed segments of the date string. -/
def inCurrentMonth (todayYear todayMonth0 : Int) (dateStr : String) : Bool :=
  match splitOnChar '-' dateStr.data with
  | a :: b :: _ =>
    match jsNumber a, jsNumber b with
    | some y, some mo => decide (y = todayYear) && decide (mo - 1 = todayMonth0)
    | _, _ => false
  | _ => false

/-- `currentMonthLogs` from the source. -/
def currentMonthLogs (todayYear todayMonth0 : Int) (logs : List MoodLog) : List MoodLog :=
  logs.filter (fun m => inCurrentMonth todayYear todayMonth0 m.date)

/-- Sum of the `value` fields. -/
def sumValues (logs : List MoodLog) : Int := (logs.map (fun m => m.value)).sum

/-- `getAverage` from the source: `0` when the list is empty, otherwise the
mean of the values rounded to one decimal
(`parseFloat((sum / logs.length).toFixed(1))`), as an exact rational. -/
def getAverage (logs : List MoodLog) : ℚ :=
  if logs.length = 0 then 0
  else (round ((sumValues logs : ℚ) / (logs.length : ℚ) * 10) : ℚ) / 10

/-- One entry of the `stats` array: the average and the record count of a
filtered set. -/
structure Summary where
  value : ℚ
  count : Nat
deriving DecidableEq

/-- The `За 7 дней` stats entry. -/
def weekSummary (todayDay : Int) (logs : List MoodLog) : Summary :=
  { value := getAverage (currentWeekLogs todayDay logs),
    count := (currentWeekLogs todayDay logs).length }

/-- The `За месяц` stats entry. -/
def monthSummary (todayYear todayMonth0 : Int) (logs : List MoodLog) : Summary :=
  { value := getAverage (currentMonthLogs todayYear todayMonth0 logs),
    count := (currentMonthLogs todayYear todayMonth0 logs).length }

/-- The `За всё время` stats entry. -/
def allTimeSummary (logs : List MoodLog) : Summary :=
  { value := getAverage logs, count := logs.length }

/-- The rendered stat value: `'-'` when the count is 0, otherwise the number
(with a leading `+` when positive). The numeric rendering is abstracted to
`toString`; the claims only evaluate the no-data branch. -/
def displayValue (st : Summary) : String :=
  if st.count > 0 then
    (if st.value > 0 then "+" ++ toString st.value else toString st.value)
  else "-"

/-! ## Auth flows (`handleLogin` / `handleRegister` in the `Auth` component)

The hosted identity provider is a parameter: `signIn`/`signUp` take an email
and a password and return the authenticated uid, or `none` for a thrown
`AuthError`.  The best-effort legacy repair inside `handleLogin` is wrapped
in its own `try/catch`; a `RepairFault` says whether the repair block ran to
completion, threw at the mapping write (nothing committed), or threw at the
profile write (mapping already committed). -/

/-- Failure point of the legacy-repair block in `handleLogin`. -/
inductive RepairFault where
  | ok : RepairFault
  | atMapping : RepairFault
  | atProfile : RepairFault
deriving DecidableEq

/-- Outcome of a login attempt: whether it completed without an error being
shown, and the resulting database state. -/
structure LoginOutcome where
  success : Bool
  store : Store

/-- `handleLogin`: resolve a username input through the directory (legacy
email values flagged for repair, uid values dereferenced to the profile's
email), sign in, and run the best-effort legacy repair when flagged. -/
def handleLogin (s : Store) (email password : String)
    (signIn : String → String → Option String) (fault : RepairFault) : LoginOutcome :=
  let usernameInput := jsTrim email
  if jsIncludes email '@' then
    match signIn email password with
    | none => { success := false, store := s }
    | some _ => { success := true, store := s }
  else
    match getUidByUsername s usernameInput with
    | none => { success := false, store := s }
    | some lookupValue =>
      if jsIncludes lookupValue '@' then
        match signIn lookupValue password with
        | none => { success := false, store := s }
        | some uid =>
          match fault with
          | RepairFault.atMapping => { success := true, store := s }
          | RepairFault.atProfile =>
            { success := true, store := registerUsername s usernameInput lookupValue uid }
          | RepairFault.ok =>
            { success := true,
              store := saveUserProfile (registerUsername s usernameInput lookupValue uid) uid
                { uid := uid, email := lookupValue, username := usernameInput } }
      else
        match getUserProfile s lookupValue with
        | none => { success := false, store := s }
        | some profile =>
          if jsFalsy profile.email then { success := false, store := s }
          else
            match signIn profile.email password with
            | none => { success := false, store := s }
            | some _ => { success := true, store := s }

/-- Outcome of a registration attempt: whether it completed without error,
whether an auth account was created, and the resulting database state. -/
structure RegisterOutcome where
  ok : Bool
  accountCreated : Bool
  store : Store

/-- `handleRegister`: local form checks, then the explicit username
pre-check (`getUidByUsername`), then account creation followed by the
mapping and profile writes. -/
def handleRegister (s : Store) (username email password confirmPassword : String)
    (signUp : String → String → Option String) : RegisterOutcome :=
  if username.data.length < 3 then { ok := false, accountCreated := false, store := s }
  else if password ≠ confirmPassword then { ok := false, accountCreated := false, store := s }
  else
    match getUidByUsername s username with
    | some _ => { ok := false, accountCreated := false, store := s }
    | none =>
      match signUp email password with
      | none => { ok := false, accountCreated := false, store := s }
      | some uid =>
        { ok := true, accountCreated := true,
          store := saveUserProfile (registerUsername s username email uid) uid
            { uid := uid, email := email, username := username } }

/-- The profile-key invariant: every stored profile record sits at the key
equal to its own `uid` field. -/
def profileKeyInv (s : Store) : Prop :=
  ∀ k p, s.profiles k = some p → p.uid = k

/-! ## Sample data for concrete witnesses -/

/-- A sample database: `alice` maps to a current-format uid, `bob` to a
legacy email value. -/
def sampleStore : Store :=
  { usernames := fun k => if k = "alice" then some "uid1" else if k = "bob" then some "bob@x.y" else none,
    profiles := fun _ => none,
    moods := fun _ _ => none }

/-- A sample mood record. -/
def mood1 : MoodLog := { date := "2024-05-01", value := 2, timestamp := 100 }

/-- A second sample mood record on the same date (for overwrite). -/
def mood2 : MoodLog := { date := "2024-05-01", value := -1, timestamp := 200 }

/-- A sample identity provider for login witnesses: authenticates the legacy
email `bob@x.y` as uid `uid7`. -/
def signInSample : String → String → Option String :=
  fun e _ => if e = "bob@x.y" then some "uid7" else none

/-- A sample identity provider for registration witnesses. -/
def signUpSample : String → String → Option String := fun _ _ => some "uid8"

/-- The spec's aggregator example: a record on the Monday of the current ISO
week (day 19842 = 2024-04-29, a Wednesday-19844 week) with value 2. -/
def exampleMon : MoodLog := { date := "2024-04-29", value := 2, timestamp := 0 }

/-- The example record on the Wednesday of the current ISO week, value -2. -/
def exampleWed : MoodLog := { date := "2024-05-01", value := -2, timestamp := 0 }

/-- The example record on the Monday of the following ISO week, value 0. -/
def exampleNextMon : MoodLog := { date := "2024-05-06", value := 0, timestamp := 0 }

/-- The spec's three-record example collection. -/
def exampleLogs : List MoodLog := [exampleMon, exampleWed, exampleNextMon]

/-! ## Claims -/

/-- **C3.** For every user identifier containing `.` or `@` and every record
and date: `saveMood` and `deleteMood` leave the store unmodified and return
without error, and `getUserProfile` and `getUserMoods` return absent/empty
without throwing — the malformed-id case is never surfaced to the caller as
a distinguishable error (the results coincide with the plain no-data
results). -/
theorem claim_C3 (s : Store) (uid : String) (r : MoodLog) (d : String)
    (h : jsIncludes uid '.' = true ∨ jsIncludes uid '@' = true) :
    saveMood s uid r = s ∧ deleteMood s uid d = s ∧
    getUserProfile s uid = none ∧ getUserMoods s uid = (fun _ => none) := by
  have hg : (jsIncludes uid '.' || jsIncludes uid '@') = true := by
    rcases h with h | h <;> simp [h]
  have hgr : (jsFalsy uid || jsIncludes uid '.' || jsIncludes uid '@') = true := by
    rcases h with h | h <;> simp [h]
  refine ⟨?_, ?_, ?_, ?_⟩ <;>
    simp [saveMood, deleteMood, getUserProfile, getUserMoods, hg, hgr]

/-- Witness for C3 at the concrete malformed identifiers `"a.b"`, `"a@b"`. -/
theorem claim_C3_witness :
    (jsIncludes "a.b" '.' = true ∨ jsIncludes "a.b" '@' = true) ∧
    (saveMood sampleStore "a.b" mood1 = sampleStore ∧
     deleteMood sampleStore "a.b" "2024-05-01" = sampleStore ∧
     getUserProfile sampleStore "a.b" = none ∧
     getUserMoods sampleStore "a.b" = (fun _ => none)) ∧
    (saveMood sampleStore "a@b" mood1 = sampleStore ∧
     deleteMood sampleStore "a@b" "2024-05-01" = sampleStore ∧
     getUserProfile sampleStore "a@b" = none ∧
     getUserMoods sampleStore "a@b" = (fun _ => none)) :=
  ⟨Or.inl (by decide),
   claim_C3 sampleStore "a.b" mood1 "2024-05-01" (Or.inl (by decide)),
   claim_C3 sampleStore "a@b" mood1 "2024-05-01" (Or.inr (by decide))⟩

/-- **C5.** Resolution reads the mapping at the lowercased-and-trimmed key:
any two usernames with the same normalisation resolve to the same stored
mapping, and `registerUsername` stores under that same normalised key. -/
theorem claim_C5 (s : Store) (u1 u2 email uid : String)
    (h : normalizeUsername u1 = normalizeUsername u2) :
    getUidByUsername s u1 = getUidByUsername s u2 ∧
    (registerUsername s u1 email uid).usernames (normalizeUsername u2) = some uid := by
  constructor
  · simp [getUidByUsername, h]
  · simp [registerUsername, ← h]

/-- Witness for C5: `"  Alice "`, `"ALICE"` and `"alice"` all hit the same
mapping in the sample store. -/
theorem claim_C5_witness :
    (normalizeUsername "  Alice " = normalizeUsername "ALICE") ∧
    getUidByUsername sampleStore "  Alice " = getUidByUsername sampleStore "ALICE" ∧
    (normalizeUsername "alice" = normalizeUsername "ALICE") ∧
    getUidByUsername sampleStore "alice" = getUidByUsername sampleStore "ALICE" ∧
    (registerUsername sampleStore "  Alice " "e@x" "uid9").usernames (normalizeUsername "ALICE") = some "uid9" :=
  ⟨by decide,
   (claim_C5 sampleStore "  Alice " "ALICE" "e@x" "uid9" (by decide)).1,
   by decide,
   (claim_C5 sampleStore "alice" "ALICE" "e@x" "uid9" (by decide)).1,
   (claim_C5 sampleStore "  Alice " "ALICE" "e@x" "uid9" (by decide)).2⟩

/-- **C6 (counterexample).** The round-trip claim is not universal in the
user identifier: at the malformed identifier `"a.b"`, `saveMood` silently
no-ops and `getUserMoods` returns the empty mapping, so the saved record is
not included. -/
theorem claim_C6_counterexample :
    ¬ (getUserMoods (saveMood Store.empty "a.b" mood1) "a.b" mood1.date = some mood1) := by
  decide

/-- **C6 (amended).** For every well-formed userId (nonempty and containing
neither `.` nor `@`) and every mood record, `saveMood` followed by
`getUserMoods` yields that record at key `record.date`, leaves every other
date unchanged, and saving again with the same date overwrites, so the one
record stored for that date holds the later value. -/
theorem claim_C6 (s : Store) (uid : String) (r r2 : MoodLog)
    (h0 : jsFalsy uid = false) (h1 : jsIncludes uid '.' = false)
    (h2 : jsIncludes uid '@' = false) :
    getUserMoods (saveMood s uid r) uid r.date = some r ∧
    (∀ d, d ≠ r.date → getUserMoods (saveMood s uid r) uid d = s.moods uid d) ∧
    (r2.date = r.date →
      getUserMoods (saveMood (saveMood s uid r) uid r2) uid r.date = some r2) := by
  refine ⟨?_, ?_, ?_⟩
  · simp [getUserMoods, saveMood, h0, h1, h2]
  · intro d hd
    simp [getUserMoods, saveMood, h0, h1, h2, Function.update_noteq hd]
  · intro hdate
    simp [getUserMoods, saveMood, h0, h1, h2, hdate]

/-- Witness for C6 at a concrete well-formed identifier, with the spec's
overwrite example (`value 2` then `value -1` on `2024-05-01`). -/
theorem claim_C6_witness :
    (jsFalsy "u1" = false ∧ jsIncludes "u1" '.' = false ∧ jsIncludes "u1" '@' = false) ∧
    getUserMoods (saveMood sampleStore "u1" mood1) "u1" mood1.date = some mood1 ∧
    ("2024-04-30" ≠ mood1.date →
      getUserMoods (saveMood sampleStore "u1" mood1) "u1" "2024-04-30" = sampleStore.moods "u1" "2024-04-30") ∧
    (mood2.date = mood1.date →
      getUserMoods (saveMood (saveMood sampleStore "u1" mood1) "u1" mood2) "u1" mood1.date = some mood2) :=
  ⟨⟨by decide, by decide, by decide⟩,
   (claim_C6 sampleStore "u1" mood1 mood2 (by decide) (by decide) (by decide)).1,
   fun h => (claim_C6 sampleStore "u1" mood1 mood2 (by decide) (by decide) (by decide)).2.1 "2024-04-30" h,
   (claim_C6 sampleStore "u1" mood1 mood2 (by decide) (by decide) (by decide)).2.2⟩

/-- **C8.** `subscribeToMoods` delivers, in its one immediate callback
invocation, exactly the collection a point read would return (the empty
mapping for an empty/malformed id or when no data exists), and returns a
deregistration capability; for an invalid id that capability is the no-op
closure, and invoking the no-op closure leaves the listener registrations
unchanged. -/
theorem claim_C8 (s : Store) (uid : String) :
    (subscribeToMoods s uid).payload = getUserMoods s uid ∧
    ((jsFalsy uid || jsIncludes uid '.' || jsIncludes uid '@') = true →
      (subscribeToMoods s uid).payload = (fun _ => none) ∧
      (subscribeToMoods s uid).unsub = Unsub.noop) ∧
    (∀ L, applyUnsub Unsub.noop L = L) := by
  refine ⟨?_, ?_, fun L => rfl⟩
  · by_cases hg : (jsFalsy uid || jsIncludes uid '.' || jsIncludes uid '@') = true <;>
      simp [subscribeToMoods, getUserMoods, hg]
  · intro hg
    simp [subscribeToMoods, hg]

/-- Witness for C8 at the invalid identifier `"a@b"`. -/
theorem claim_C8_witness :
    (subscribeToMoods sampleStore "a@b").payload = getUserMoods sampleStore "a@b" ∧
    ((jsFalsy "a@b" || jsIncludes "a@b" '.' || jsIncludes "a@b" '@') = true) ∧
    (subscribeToMoods sampleStore "a@b").unsub = Unsub.noop ∧
    applyUnsub Unsub.noop ["users/u1/moods"] = ["users/u1/moods"] :=
  ⟨(claim_C8 sampleStore "a@b").1,
   by decide,
   ((claim_C8 sampleStore "a@b").2.1 (by decide)).2,
   (claim_C8 sampleStore "a@b").2.2 ["users/u1/moods"]⟩

/-- **C9.** The empty-string identifier is guarded asymmetrically: the
read-side operations treat it as malformed (absent profile, empty
collection, no-op unsubscribe capability), while the write-side guards of
`saveMood`/`deleteMood` test only for `.` and `@`, so writes with the empty
identifier are not rejected and proceed to update the store at the empty
key. -/
theorem claim_C9 (s : Store) (r : MoodLog) (d : String) :
    getUserProfile s "" = none ∧
    getUserMoods s "" = (fun _ => none) ∧
    (subscribeToMoods s "").unsub = Unsub.noop ∧
    saveMood s "" r =
      { s with moods := Function.update s.moods "" (Function.update (s.moods "") r.date (some r)) } ∧
    deleteMood s "" d =
      { s with moods := Function.update s.moods "" (Function.update (s.moods "") d none) } := by
  have h1 : jsFalsy "" = true := by decide
  have h2 : jsIncludes "" '.' = false := by decide
  have h3 : jsIncludes "" '@' = false := by decide
  refine ⟨?_, ?_, ?_, ?_, ?_⟩ <;>
    simp [getUserProfile, getUserMoods, subscribeToMoods, saveMood, deleteMood, h1, h2, h3]
/-- **C1 (counterexample).** On the empty collection the source's
`getAverage` returns the number `0`, not a sentinel distinct from `0`: all
three summaries report average exactly `0` (alongside count 0), so the
average value alone cannot signal "no data". -/
theorem claim_C1_counterexample :
    (weekSummary 19844 []).value = 0 ∧ (weekSummary 19844 []).count = 0 ∧
    (monthSummary 2024 4 []).value = 0 ∧ (monthSummary 2024 4 []).count = 0 ∧
    (allTimeSummary []).value = 0 ∧ (allTimeSummary []).count = 0 :=
  ⟨rfl, rfl, rfl, rfl, rfl, rfl⟩

/-- **C1 (amended).** Given an empty Mood Collection, each of the three
summaries (current-week, current-month, all-time) reports count 0 and
average 0 — the same number as a true neutral average — so callers tell "no
data" apart from a true average of 0 using the count, not the average value;
the rendered stat value is the `"-"` placeholder exactly because the count
is 0. -/
theorem claim_C1 (todayDay todayYear todayMonth0 : Int) :
    weekSummary todayDay [] = ⟨0, 0⟩ ∧
    monthSummary todayYear todayMonth0 [] = ⟨0, 0⟩ ∧
    allTimeSummary [] = ⟨0, 0⟩ ∧
    displayValue (weekSummary todayDay []) = "-" ∧
    displayValue (monthSummary todayYear todayMonth0 []) = "-" ∧
    displayValue (allTimeSummary []) = "-" :=
  ⟨rfl, rfl, rfl, rfl, rfl, rfl⟩

/-- **C2.** The current-week summary averages exactly the records whose
date, parsed from the stored `YYYY-MM-DD` string (the `timestamp` field is
not consulted), falls between Monday 00:00:00 and Sunday 23:59:59.999 of
the ISO week containing "now": membership in `currentWeekLogs` is exactly
"parsed day number within [monday, monday+6]", the computed `monday` is the
Monday of the week containing today, and on a Sunday the week start is the
Monday six days prior.  On the spec's example (Monday value 2, Wednesday
value -2 in the current week, next Monday value 0), the weekly summary is
average 0 with count 2, excluding the next-week record. -/
theorem claim_C2 :
    (∀ (todayDay : Int) (logs : List MoodLog) (r : MoodLog),
      r ∈ currentWeekLogs todayDay logs ↔
        r ∈ logs ∧ ∃ dn, parseDateDay r.date = some dn ∧
          mondayOf todayDay ≤ dn ∧ dn ≤ mondayOf todayDay + 6) ∧
    (∀ todayDay : Int,
      jsGetDay (mondayOf todayDay) = 1 ∧
      mondayOf todayDay ≤ todayDay ∧ todayDay ≤ mondayOf todayDay + 6) ∧
    (∀ todayDay : Int, jsGetDay todayDay = 0 → mondayOf todayDay = todayDay - 6) ∧
    (parseDateDay exampleMon.date = some 19842 ∧ jsGetDay 19842 = 1 ∧
     parseDateDay exampleWed.date = some 19844 ∧
     parseDateDay exampleNextMon.date = some 19849 ∧
     mondayOf 19844 = 19842 ∧
     currentWeekLogs 19844 exampleLogs = [exampleMon, exampleWed] ∧
     weekSummary 19844 exampleLogs = ⟨0, 2⟩) := by
  refine ⟨?_, ?_, ?_, ?_⟩
  · intro todayDay logs r
    rw [currentWeekLogs, List.mem_filter]
    refine and_congr_right fun _ => ?_
    unfold inCurrentWeek
    cases hp : parseDateDay r.date with
    | none => simp
    | some dn =>
      simp only [Bool.and_eq_true, decide_eq_true_eq, msPerDay]
      constructor
      · rintro ⟨h1, h2⟩
        exact ⟨dn, rfl, by omega, by omega⟩
      · rintro ⟨dn', hdn', h1, h2⟩
        cases hdn'
        exact ⟨by omega, by omega⟩
  · intro todayDay
    unfold mondayOf distanceToMonday jsGetDay
    split <;> omega
  · intro todayDay h
    unfold mondayOf distanceToMonday
    rw [if_pos h]
  · have hfilter : currentWeekLogs 19844 exampleLogs = [exampleMon, exampleWed] := by decide
    refine ⟨by decide, by decide, by decide, by decide, by decide, hfilter, ?_⟩
    rw [weekSummary, hfilter]
    norm_num [getAverage, sumValues, exampleMon, exampleWed]

/-- Witness for C2 on a concrete Sunday (day 19848 = 2024-05-05): the week
start is the Monday six days prior, and the example record is in the week
of 2024-05-01. -/
theorem claim_C2_witness :
    jsGetDay 19848 = 0 ∧ mondayOf 19848 = 19848 - 6 ∧
    (exampleMon ∈ currentWeekLogs 19844 exampleLogs ↔
      exampleMon ∈ exampleLogs ∧ ∃ dn, parseDateDay exampleMon.date = some dn ∧
        mondayOf 19844 ≤ dn ∧ dn ≤ mondayOf 19844 + 6) :=
  ⟨by decide, claim_C2.2.2.1 19848 (by decide), claim_C2.1 19844 exampleLogs exampleMon⟩

/-- **C4.** When sign-in succeeds through a username whose mapping value
contains `@` (a legacy email mapping), `handleLogin` completes successfully
for every repair outcome (a repair failure is caught and never blocks the
login), and when the repair runs it overwrites the mapping of the
normalised username to the authenticated uid and upserts the profile record
`{uid, email, username}` at that uid. -/
theorem claim_C4 (s : Store) (email password v uid : String)
    (signIn : String → String → Option String)
    (h1 : jsIncludes email '@' = false)
    (h2 : getUidByUsername s (jsTrim email) = some v)
    (h3 : jsIncludes v '@' = true)
    (h4 : signIn v password = some uid)
    (h5 : jsIncludes uid '.' = false) (h6 : jsIncludes uid '@' = false) :
    (∀ fault, (handleLogin s email password signIn fault).success = true) ∧
    (handleLogin s email password signIn RepairFault.ok).store.usernames
      (normalizeUsername (jsTrim email)) = some uid ∧
    (handleLogin s email password signIn RepairFault.ok).store.profiles uid =
      some { uid := uid, email := v, username := jsTrim email } := by
  refine ⟨?_, ?_, ?_⟩
  · intro fault
    cases fault <;> simp [handleLogin, h1, h2, h3, h4]
  · simp [handleLogin, h1, h2, h3, h4, h5, h6, saveUserProfile, registerUsername]
  · simp [handleLogin, h1, h2, h3, h4, h5, h6, saveUserProfile, registerUsername]

/-- Witness for C4: in the sample store, `" Bob"` resolves (after
normalisation) to the legacy value `bob@x.y`, the sample provider
authenticates it as `uid7`, and the repair rewrites the mapping and the
profile. -/
theorem claim_C4_witness :
    (jsIncludes " Bob" '@' = false ∧
     getUidByUsername sampleStore (jsTrim " Bob") = some "bob@x.y" ∧
     jsIncludes "bob@x.y" '@' = true ∧
     signInSample "bob@x.y" "pw" = some "uid7") ∧
    (∀ fault, (handleLogin sampleStore " Bob" "pw" signInSample fault).success = true) ∧
    (handleLogin sampleStore " Bob" "pw" signInSample RepairFault.ok).store.usernames
      (normalizeUsername (jsTrim " Bob")) = some "uid7" ∧
    (handleLogin sampleStore " Bob" "pw" signInSample RepairFault.ok).store.profiles "uid7" =
      some { uid := "uid7", email := "bob@x.y", username := jsTrim " Bob" } :=
  ⟨⟨by decide, by decide, by decide, by decide⟩,
   (claim_C4 sampleStore " Bob" "pw" "bob@x.y" "uid7" signInSample
      (by decide) (by decide) (by decide) (by decide) (by decide) (by decide)).1,
   (claim_C4 sampleStore " Bob" "pw" "bob@x.y" "uid7" signInSample
      (by decide) (by decide) (by decide) (by decide) (by decide) (by decide)).2.1,
   (claim_C4 sampleStore " Bob" "pw" "bob@x.y" "uid7" signInSample
      (by decide) (by decide) (by decide) (by decide) (by decide) (by decide)).2.2⟩

/-- **C7.** The username-taken conflict is surfaced only by the explicit
pre-check in `handleRegister`: when resolving the chosen username (after
the local form checks) finds any existing mapping value, registration fails
with a user-facing error and writes no account, mapping, or profile, while
`registerUsername` itself performs no uniqueness check and unconditionally
overwrites the mapping. -/
theorem claim_C7 (s : Store) (username email password confirm v : String)
    (signUp : String → String → Option String)
    (h1 : ¬ username.data.length < 3) (h2 : password = confirm)
    (h3 : getUidByUsername s username = some v) :
    (handleRegister s username email password confirm signUp).ok = false ∧
    (handleRegister s username email password confirm signUp).accountCreated = false ∧
    (handleRegister s username email password confirm signUp).store = s ∧
    (∀ (s' : Store) (u e uid : String),
      (registerUsername s' u e uid).usernames (normalizeUsername u) = some uid) := by
  refine ⟨?_, ?_, ?_, fun s' u e uid => by simp [registerUsername]⟩ <;>
    simp [handleRegister, h1, h2, h3]

/-- Witness for C7: registering `"Alice"` is rejected by the pre-check
because the sample store already maps `alice`, and the store is unchanged. -/
theorem claim_C7_witness :
    (¬ "Alice".data.length < 3 ∧ ("pw" : String) = "pw" ∧
     getUidByUsername sampleStore "Alice" = some "uid1") ∧
    (handleRegister sampleStore "Alice" "new@x.y" "pw" "pw" signUpSample).ok = false ∧
    (handleRegister sampleStore "Alice" "new@x.y" "pw" "pw" signUpSample).accountCreated = false ∧
    (handleRegister sampleStore "Alice" "new@x.y" "pw" "pw" signUpSample).store = sampleStore ∧
    (registerUsername sampleStore "Alice" "new@x.y" "uid8").usernames
      (normalizeUsername "Alice") = some "uid8" :=
  ⟨⟨by decide, rfl, by decide⟩,
   (claim_C7 sampleStore "Alice" "new@x.y" "pw" "pw" "uid1" signUpSample
      (by decide) rfl (by decide)).1,
   (claim_C7 sampleStore "Alice" "new@x.y" "pw" "pw" "uid1" signUpSample
      (by decide) rfl (by decide)).2.1,
   (claim_C7 sampleStore "Alice" "new@x.y" "pw" "pw" "uid1" signUpSample
      (by decide) rfl (by decide)).2.2.1,
   (claim_C7 sampleStore "Alice" "new@x.y" "pw" "pw" "uid1" signUpSample
      (by decide) rfl (by decide)).2.2.2 sampleStore "Alice" "new@x.y" "uid8"⟩

/-- Writing a profile whose `uid` field equals the storage key preserves
the profile-key invariant. -/
theorem profileKeyInv_saveUserProfile (s : Store) (uid email username : String)
    (h : profileKeyInv s) :
    profileKeyInv (saveUserProfile s uid { uid := uid, email := email, username := username }) := by
  unfold saveUserProfile
  split
  · exact h
  · intro k p hk
    simp only [Function.update_apply] at hk
    split at hk
    · cases hk
      simpa using (by assumption : k = uid).symm
    · exact h k p hk

/-- `registerUsername` does not touch the profile store, so it preserves
the profile-key invariant. -/
theorem profileKeyInv_registerUsername (s : Store) (u e uid : String)
    (h : profileKeyInv s) : profileKeyInv (registerUsername s u e uid) := h

/-- **C10.** Every profile record the core writes — at registration and at
legacy repair — is saved under the key equal to its own `uid` field: if a
store satisfies `profile.uid = storage key` for every stored profile, then
so does the store after any `handleRegister` and after any `handleLogin`
(with any inputs, provider behaviour and repair fault). -/
theorem claim_C10 (s : Store) (username email password confirm lemail lpassword : String)
    (signUp signIn : String → String → Option String) (fault : RepairFault)
    (h : profileKeyInv s) :
    profileKeyInv (handleRegister s username email password confirm signUp).store ∧
    profileKeyInv (handleLogin s lemail lpassword signIn fault).store := by
  constructor
  · simp only [handleRegister]
    split
    · exact h
    split
    · exact h
    split
    · exact h
    split
    · exact h
    · exact profileKeyInv_saveUserProfile _ _ _ _ (profileKeyInv_registerUsername _ _ _ _ h)
  · simp only [handleLogin]
    split
    · split <;> exact h
    split
    · exact h
    split
    · split
      · exact h
      split
      · exact h
      · exact fun k p hk => h k p hk
      · apply profileKeyInv_saveUserProfile
        exact fun k p hk => h k p hk
    · split
      · exact h
      split
      · exact h
      split <;> exact h

/-- Witness for C10: starting from the empty store (which trivially
satisfies the invariant), a concrete registration and a concrete legacy
login both leave every stored profile keyed by its own `uid`. -/
theorem claim_C10_witness :
    profileKeyInv Store.empty ∧
    profileKeyInv (handleRegister Store.empty "carol" "c@x.y" "pw" "pw" signUpSample).store ∧
    profileKeyInv (handleLogin Store.empty "bob" "pw" signInSample RepairFault.ok).store :=
  have hinv : profileKeyInv Store.empty := fun k p hk => by simp [Store.empty] at hk
  ⟨hinv,
   (claim_C10 Store.empty "carol" "c@x.y" "pw" "pw" "bob" "pw" signUpSample signInSample
      RepairFault.ok hinv).1,
   (claim_C10 Store.empty "carol" "c@x.y" "pw" "pw" "bob" "pw" signUpSample signInSample
      RepairFault.ok hinv).2⟩
